import Mathlib

/-!
Shallow embedding of the SQL-generation core of the `nl2sqldocker2` repository
(`src/core/sql_generator.py` and the relationship analysis of the schema
analyzer), together with theorems settling the frozen claims about it.

Strings are embedded as `List Char` (`Str` below); Python string literals are
written with `String.data`.  Each definition carries a doc comment naming the
Python function or fragment it embeds.  Recursions that consume more than one
character per step take an explicit fuel argument initialised with the string
length, which is always sufficient because every step consumes at least one
character; this keeps every definition structurally recursive and hence
evaluable by the kernel.
-/

set_option maxRecDepth 8192

abbrev Str := List Char

/-- Python whitespace class `\s` restricted to the ASCII range, which is the
only range the source ever feeds to these functions. -/
def wsChar (c : Char) : Bool :=
  c = ' ' || c = '\t' || c = '\n' || c = '\r' || c = '\x0b' || c = '\x0c'

/-- Python `str.lstrip()`. -/
def pylstrip (s : Str) : Str := s.dropWhile wsChar

/-- Python `str.rstrip()`. -/
def pyrstrip (s : Str) : Str := (s.reverse.dropWhile wsChar).reverse

/-- Python `str.strip()`. -/
def pystrip (s : Str) : Str := pylstrip (pyrstrip s)

/-- Index of the leftmost occurrence of `pat` as a contiguous substring of
`hay` (the position at which `re.search` of an escaped literal, or
`str.find`, succeeds).  The empty pattern matches at index 0. -/
def firstIdx (hay pat : Str) : Option Nat :=
  match hay with
  | [] => if pat.isPrefixOf ([] : Str) then some 0 else none
  | c :: t =>
    if pat.isPrefixOf (c :: t) then some 0 else (firstIdx t pat).map (· + 1)

/-- Python `pat in hay` substring test. -/
def containsSub (hay pat : Str) : Bool := (firstIdx hay pat).isSome

/-- Worker for `replaceAll`; `pat` is non-empty, so each step consumes at
least one character and `fuel = s.length` never runs out. -/
def replaceAllGo (pat rep : Str) : Nat → Str → Str
  | 0, s => s
  | _ + 1, [] => []
  | fuel + 1, c :: t =>
    if pat.isPrefixOf (c :: t) then
      rep ++ replaceAllGo pat rep fuel ((c :: t).drop pat.length)
    else
      c :: replaceAllGo pat rep fuel t

/-- Python `str.replace(pat, rep)` for a non-empty `pat` (the source only ever
replaces the non-empty literals `"SQL:"` and an extracted SQL statement). -/
def replaceAll (s pat rep : Str) : Str :=
  if pat.isEmpty then s else replaceAllGo pat rep s.length s

example : replaceAll "aSQL:bSQL:c".data "SQL:".data "".data = "abc".data := by decide
example : firstIdx "hello".data "ll".data = some 2 := by decide
example : firstIdx "hello".data "z".data = none := by decide
example : pystrip "  a b \n".data = "a b".data := by decide

/-! ## Response parsing (`SQLGenerator._extract_sql`, `_extract_explanation`) -/

def fence : Str := "```".data

def sqlTag : Str := "```sql".data

/-- The keyword alternation `(SELECT|INSERT|UPDATE|DELETE|CREATE|ALTER|DROP|BEGIN|WITH)`
used by extraction patterns 2 and 5; returns the length of the keyword that
matches at the head of `s`, if any.  No listed keyword is a prefix of another,
so the alternation order is immaterial. -/
def matchSqlKeyword (s : Str) : Option Nat :=
  (["SELECT", "INSERT", "UPDATE", "DELETE", "CREATE", "ALTER", "DROP",
    "BEGIN", "WITH"].map String.data).findSome?
    (fun kw => if kw.isPrefixOf s then some kw.length else none)

/-- Leftmost-match regex search: try the position matcher `f` on every suffix
of `s` from the left and return its first success, mirroring how `re.search`
finds the smallest starting index at which the whole pattern matches. -/
def scanLeftmost (f : Str → Option Str) : Str → Option Str
  | [] => f []
  | s@(_ :: t) =>
    match f s with
    | some r => some r
    | none => scanLeftmost f t

/-- Pattern 1, `re.search(r"```sql\s*(.*?)\s*```", response, re.DOTALL)` with
`group(1).strip()`.  The leftmost full match starts at the first occurrence of
the literal `"```sql"` and its lazy group ends at the next occurrence of
`"```"`; a later `"```sql"` occurrence itself contains `"```"`, so if no
`"```"` follows the first tag the whole pattern has no match anywhere.  The
greedy `\s*` bracketing of the lazy group composed with the final `.strip()`
is exactly `pystrip` of the text between the two delimiters. -/
def p1TaggedFence (resp : Str) : Option Str :=
  match firstIdx resp sqlTag with
  | none => none
  | some i =>
    let rest := resp.drop (i + 6)
    match firstIdx rest fence with
    | none => none
    | some j => some (pystrip (rest.take j))

/-- One-position matcher for pattern 2,
`r"```\s*(SELECT|INSERT|UPDATE|DELETE|CREATE|ALTER|DROP|BEGIN|WITH).*?```"`.
After the opening fence the greedy `\s*` must consume the maximal whitespace
run (the keyword alternatives all start with a non-whitespace letter, so no
backtracking into the run can succeed), and the lazy `.*?` ends at the first
`"```"` after the keyword.  The source uses `group` index 0, so the returned
text is the whole match, fences included. -/
def p2At (s : Str) : Option Str :=
  if fence.isPrefixOf s then
    let body := s.drop 3
    let w := (body.takeWhile wsChar).length
    match matchSqlKeyword (body.drop w) with
    | none => none
    | some klen =>
      match firstIdx (body.drop (w + klen)) fence with
      | none => none
      | some j => some (s.take (3 + w + klen + j + 3))
  else none

/-- Pattern 2 with the source's post-processing
`matches.group().replace("SQL:", "").strip()`. -/
def p2UntaggedFence (resp : Str) : Option Str :=
  (scanLeftmost p2At resp).map (fun m => pystrip (replaceAll m "SQL:".data "".data))

/-- One-position matcher for patterns 3 and 4,
`label + r"\s*```\s*(.*?)\s*```"` with `group(1).strip()`; `label` is
`"SQL:"` or `"SQL Query:"`.  As in pattern 2 the greedy `\s*` runs cannot
backtrack into a successful match, and the lazy group ends at the first
closing fence. -/
def labelledFenceAt (label : Str) (s : Str) : Option Str :=
  if label.isPrefixOf s then
    let body := s.drop label.length
    let w := (body.takeWhile wsChar).length
    if fence.isPrefixOf (body.drop w) then
      let inner := body.drop (w + 3)
      match firstIdx inner fence with
      | none => none
      | some j => some (pystrip (inner.take j))
    else none
  else none

/-- Pattern 3, `r"SQL:\s*```\s*(.*?)\s*```"`, `group(1).strip()`. -/
def p3LabelledFence (resp : Str) : Option Str :=
  scanLeftmost (labelledFenceAt "SQL:".data) resp

/-- Pattern 4, `r"SQL Query:\s*```\s*(.*?)\s*```"`, `group(1).strip()`. -/
def p4QueryLabelledFence (resp : Str) : Option Str :=
  scanLeftmost (labelledFenceAt "SQL Query:".data) resp

/-- One-position matcher for pattern 5,
`r"SQL:\s*(SELECT|...|WITH).*?;"` whose lazy tail ends at the first `';'`
after the keyword; the whole match (group 0) is returned. -/
def p5At (s : Str) : Option Str :=
  if ("SQL:".data).isPrefixOf s then
    let body := s.drop 4
    let w := (body.takeWhile wsChar).length
    match matchSqlKeyword (body.drop w) with
    | none => none
    | some klen =>
      match firstIdx (body.drop (w + klen)) [';'] with
      | none => none
      | some j => some (s.take (4 + w + klen + j + 1))
  else none

/-- Pattern 5 with the source's post-processing
`matches.group().replace("SQL:", "").strip()`. -/
def p5LabelledInline (resp : Str) : Option Str :=
  (scanLeftmost p5At resp).map (fun m => pystrip (replaceAll m "SQL:".data "".data))

/-- The command list of the bare-keyword fallback in `_extract_sql`, in the
source's priority order. -/
def sqlCommands : List Str :=
  ["SELECT", "INSERT INTO", "UPDATE", "DELETE FROM", "CREATE TABLE",
   "ALTER TABLE", "DROP TABLE", "BEGIN TRANSACTION"].map String.data

/-- Lazy group end for `f"({command}.*?)(\\.|$)"` applied at the suffix `s`
of the response that starts at the first occurrence of the command (so the
end of `s` is the end of the whole subject string): the minimal position at
or after `start` holding a literal `'.'`, else the `$` position, which in
non-MULTILINE mode is the end of the string or just before a terminating
newline.  A `'.'` occurrence always precedes both `$` positions. -/
def lazyDotEnd (s : Str) (start : Nat) : Nat :=
  match firstIdx (s.drop start) ['.'] with
  | some j => start + j
  | none => if s.getLast? = some '\n' then s.length - 1 else s.length

/-- Capture of the bare-keyword fallback for one command: the regex
`f"({command}.*?)(\\.|$)"` matches at the first occurrence of the command
(the second group can always match at `$`), and group 1 runs to
`lazyDotEnd`. -/
def bareCapture (resp cmd : Str) : Str :=
  match firstIdx resp cmd with
  | none => []
  | some i =>
    let s := resp.drop i
    s.take (lazyDotEnd s cmd.length)

/-- The bare-keyword fallback loop of `_extract_sql`: the first command of
`sqlCommands` occurring anywhere in the response is captured through the next
`'.'` or end of text and stripped.  (The regex always matches once the
substring test succeeds, so the source's `if match:` guard is never false.) -/
def bareKeywordSearch (resp : Str) : Option Str :=
  match sqlCommands.find? (fun cmd => containsSub resp cmd) with
  | none => none
  | some cmd => some (pystrip (bareCapture resp cmd))

/-- `SQLGenerator._extract_sql`: the ordered strategy cascade; returns the
empty string when nothing matches. -/
def extractSql (resp : Str) : Str :=
  match p1TaggedFence resp with
  | some r => r
  | none =>
  match p2UntaggedFence resp with
  | some r => r
  | none =>
  match p3LabelledFence resp with
  | some r => r
  | none =>
  match p4QueryLabelledFence resp with
  | some r => r
  | none =>
  match p5LabelledInline resp with
  | some r => r
  | none =>
  match bareKeywordSearch resp with
  | some r => r
  | none => []

example : extractSql "text ```sql\nSELECT 1\n``` more".data = "SELECT 1".data := by decide
example : extractSql "no sql here".data = [] := by decide
example :
    extractSql "Here is it:\n```\nSELECT id FROM users;\n```\nDone.".data
      = "```\nSELECT id FROM users;\n```".data := by decide
example : extractSql "Usa SELECT 1.5 FROM tabla t".data = "SELECT 1".data := by decide

/-- Capture for one explanation marker pattern
`marker + r"(.*?)(?:```|$)"` with `group(1).strip()`: the pattern matches at
the first occurrence of the marker (the tail can always match at `$`), and
the lazy group runs to the first `"```"` after it, else to the `$` position
(end of string, or just before a terminating newline). -/
def explanationCapture (resp marker : Str) : Option Str :=
  match firstIdx resp marker with
  | none => none
  | some i =>
    let u := resp.drop (i + marker.length)
    let p :=
      match firstIdx u fence with
      | some j => j
      | none => if u.getLast? = some '\n' then u.length - 1 else u.length
    some (pystrip (u.take p))

/-- Worker for `removeFencedBlocks`; each step consumes at least one
character, so `fuel = s.length` never runs out. -/
def removeFencedGo : Nat → Str → Str
  | 0, s => s
  | _ + 1, [] => []
  | fuel + 1, c :: t =>
    if fence.isPrefixOf (c :: t) then
      match firstIdx ((c :: t).drop 3) fence with
      | some j => removeFencedGo fuel ((c :: t).drop (3 + j + 3))
      | none => c :: removeFencedGo fuel t
    else
      c :: removeFencedGo fuel t

/-- `re.sub(r"```.*?```", "", response, flags=re.DOTALL)`: delete every
non-overlapping lazy pair of fences, scanning left to right. -/
def removeFencedBlocks (s : Str) : Str := removeFencedGo s.length s

/-- `SQLGenerator._extract_explanation`: ordered marker patterns, then the
fallback that removes fenced blocks and the extracted SQL from the whole
response, then the raw stripped response. -/
def extractExplanation (resp : Str) : Str :=
  match explanationCapture resp "Explicación:".data with
  | some r => r
  | none =>
  match explanationCapture resp "Explanation:".data with
  | some r => r
  | none =>
  match explanationCapture resp "Esta consulta:".data with
  | some r => r
  | none =>
  match explanationCapture resp "This query:".data with
  | some r => r
  | none =>
    let sql := extractSql resp
    if sql ≠ [] then
      pystrip (replaceAll (removeFencedBlocks resp) sql [])
    else
      pystrip resp

example :
    extractExplanation "```sql\nSELECT 1\n```\nExplicación: cuenta filas\n".data
      = "cuenta filas".data := by decide

/-! ## SQL formatting (`SQLGenerator._format_sql`) -/

/-- Python `\w` word-character test over the ASCII range. -/
def wordChar (c : Char) : Bool := c.isAlphanum || c = '_'

/-- `\b` holds after a match when the next character is absent or not a word
character (all formatter keywords end in a word character). -/
def boundaryAfter : Str → Bool
  | [] => true
  | d :: _ => !wordChar d

/-- Prefix match of the pattern `kw` against `s` under a character comparison
`cmp` (exact for case-sensitive substitution, lowercase folding for
`re.IGNORECASE`). -/
def cmpPrefix (cmp : Char → Char → Bool) : Str → Str → Bool
  | [], _ => true
  | _ :: _, [] => false
  | p :: pt, c :: ct => cmp p c && cmpPrefix cmp pt ct

/-- Worker for `reSubWord`; `prevWord` records whether the previous character
of the original subject was a word character (`\b` before a match requires it
was not; all formatter keywords begin with a word character, so the start of
the string is a boundary).  Each step consumes at least one character since
`kw` is non-empty. -/
def reSubWordGo (cmp : Char → Char → Bool) (kw rep : Str) :
    Nat → Bool → Str → Str
  | 0, _, s => s
  | _ + 1, _, [] => []
  | fuel + 1, prevWord, c :: t =>
    if !prevWord && cmpPrefix cmp kw (c :: t) && boundaryAfter ((c :: t).drop kw.length) then
      rep ++ reSubWordGo cmp kw rep fuel true ((c :: t).drop kw.length)
    else
      c :: reSubWordGo cmp kw rep fuel (wordChar c) t

/-- `re.sub(r'\b' + re.escape(kw) + r'\b', rep, s)` under the character
comparison `cmp`, for a non-empty keyword: whole-word, left-to-right,
non-overlapping substitution. -/
def reSubWord (cmp : Char → Char → Bool) (kw rep s : Str) : Str :=
  if kw.isEmpty then s else reSubWordGo cmp kw rep s.length false s

/-- Case-insensitive comparison of a lowercase pattern character against a
subject character, as `re.IGNORECASE` behaves on the formatter's ASCII
keywords. -/
def ciChar (p c : Char) : Bool := p = c.toLower

/-- The keyword list of `_format_sql` step 1 (uppercasing), in source order. -/
def formatKeywords : List String :=
  ["SELECT", "FROM", "WHERE", "GROUP BY", "ORDER BY", "HAVING",
   "JOIN", "LEFT JOIN", "RIGHT JOIN", "INNER JOIN", "OUTER JOIN",
   "LIMIT", "OFFSET", "INSERT INTO", "VALUES", "UPDATE", "SET",
   "DELETE FROM", "CREATE TABLE", "ALTER TABLE", "DROP TABLE",
   "AND", "OR", "NOT", "IN", "LIKE", "BETWEEN", "IS NULL", "IS NOT NULL"]

/-- The keyword list of `_format_sql` step 2 (newline insertion), in source
order. -/
def newlineKeywords : List String :=
  ["SELECT", "FROM", "WHERE", "GROUP BY", "ORDER BY", "HAVING",
   "JOIN", "LEFT JOIN", "RIGHT JOIN", "INNER JOIN", "OUTER JOIN",
   "LIMIT", "INSERT INTO", "VALUES", "UPDATE", "SET", "DELETE FROM"]

/-- Python `str.lower()` over the ASCII range. -/
def pyLower (s : Str) : Str := s.map Char.toLower

/-- `formatted.split('\n')`. -/
def splitNl (s : Str) : List Str := s.splitOn '\n'

/-- `SQLGenerator._format_sql`: strip; uppercase each keyword with a
case-insensitive whole-word substitution; insert `'\n'` before each
(now uppercase) keyword of `newlineKeywords` with a case-sensitive whole-word
substitution; re-strip and four-space-indent every line after the first;
join and strip. -/
def formatSql (sql : Str) : Str :=
  let sql := pystrip sql
  let formatted := formatKeywords.foldl
    (fun f kw => reSubWord ciChar (pyLower kw.data) kw.data f) sql
  let formatted := newlineKeywords.foldl
    (fun f kw => reSubWord (fun p c => p = c) kw.data ('\n' :: kw.data) f) formatted
  let lines := splitNl formatted
  let lines :=
    match lines with
    | [] => []
    | h :: t => h :: t.map (fun l => "    ".data ++ pystrip l)
  pystrip (List.intercalate ['\n'] lines)

example : formatSql "select a from t".data = "SELECT a\n    FROM t".data := by decide
example :
    formatSql "SELECT a\n    FROM t".data = "SELECT a\n    \n    FROM t".data := by decide
example : formatSql "select 1".data = "SELECT 1".data := by decide

/-! ## Schema data model

The dictionaries produced by the schema analyzer
(`SchemaAnalyzer._analyze_table` / `_analyze_relationships` in the analyzer
module) and consumed by `SQLGenerator`.  Dictionaries become association
lists in reflection order; `.get` becomes `dictGet`. -/

/-- One entry of a table's `"columns"` mapping. -/
structure ColumnInfo where
  type : Str
  nullable : Bool
  primary_key : Bool
deriving DecidableEq, Repr

/-- One entry of a table's `"indexes"` list. -/
structure IndexInfo where
  name : Str
  columns : List Str
  unique : Bool
deriving DecidableEq, Repr

/-- One entry of a table's `"foreign_keys"` list. -/
structure FKInfo where
  column : Str
  references_table : Str
  references_column : Str
deriving DecidableEq, Repr

/-- The per-table dictionary built by the schema analyzer. -/
structure TableInfo where
  columns : List (Str × ColumnInfo) := []
  primary_key : List Str := []
  foreign_keys : List FKInfo := []
  indexes : List IndexInfo := []
deriving DecidableEq, Repr

/-- One entry of the schema's `"relationships"` list. -/
structure Relationship where
  table_from : Str
  column_from : Str
  table_to : Str
  column_to : Str
  relationship_type : Str
deriving DecidableEq, Repr

/-- The `"database_info"` dictionary; `.get('name', 'N/A')`-style access is
modelled with `Option`. -/
structure DBInfo where
  name : Option Str := none
  type : Option Str := none
deriving DecidableEq, Repr

/-- The schema dictionary handed to `SQLGenerator`: `"tables"` (a dict in
reflection order), `"relationships"`, and optionally `"database_info"`. -/
structure Schema where
  database_info : Option DBInfo := none
  tables : List (Str × TableInfo)
  relationships : List Relationship := []
deriving DecidableEq, Repr

/-- Python `dict.get(k)` on an association list with unique keys. -/
def dictGet (l : List (Str × TableInfo)) (k : Str) : Option TableInfo :=
  (l.find? (fun p => p.1 = k)).map (·.2)

/-! ## SQL validation (`SQLGenerator._validate_sql`) -/

/-- The validation result `{"valid": ..., "errors": [...]}`. -/
structure Validation where
  valid : Bool
  errors : List Str
deriving DecidableEq, Repr

/-- `validation["valid"] = False` plus appending one error message. -/
def addErr (v : Validation) (msg : Str) : Validation :=
  { valid := false, errors := v.errors ++ [msg] }

/-- One step of `re.finditer(r'\bFROM\s+([a-zA-Z0-9_]+)|\bJOIN\s+([a-zA-Z0-9_]+)',
sql, re.IGNORECASE)`: try to match either alternative at the head of `s`,
where `prevWord` says whether the previous character was a word character
(`\b` requires it was not).  On success, return the captured identifier and
the remaining suffix. -/
def tableRefAt (prevWord : Bool) (s : Str) : Option (Str × Str) :=
  if prevWord then none
  else
    (["FROM", "JOIN"].map String.data).findSome? (fun kw =>
      if cmpPrefix ciChar (pyLower kw) s then
        let body := s.drop 4
        let w := (body.takeWhile wsChar).length
        if w = 0 then none
        else
          let name := (body.drop w).takeWhile wordChar
          if name.isEmpty then none else some (name, (body.drop w).drop name.length)
      else none)

/-- Worker for `tableRefs`: scan left to right, emitting each non-overlapping
match of the table pattern; each successful match consumes at least five
characters, so `fuel = s.length` never runs out. -/
def tableRefsGo : Nat → Bool → Str → List Str
  | 0, _, _ => []
  | _ + 1, _, [] => []
  | fuel + 1, prevWord, c :: t =>
    match tableRefAt prevWord (c :: t) with
    | some (name, rest) => name :: tableRefsGo fuel (wordChar (name.getLastD 'x')) rest
    | none => tableRefsGo fuel (wordChar c) t

/-- All identifiers following `FROM` or `JOIN` in the statement, in match
order (the `finditer` loop of check 4). -/
def tableRefs (sql : Str) : List Str := tableRefsGo sql.length false sql

/-- Checks 1–3 of `SQLGenerator._validate_sql`: balanced parentheses, `FROM`
required after a leading `SELECT`, balanced single and double quotes.
Errors accumulate in check order. -/
def validateBase (sql : Str) : Validation :=
  let v : Validation := { valid := true, errors := [] }
  let v := if sql.count '(' ≠ sql.count ')' then addErr v "Paréntesis no balanceados".data else v
  let v :=
    if ("SELECT".data).isPrefixOf ((pystrip sql).map Char.toUpper) then
      if !containsSub (sql.map Char.toUpper) "FROM".data then
        addErr v "Falta palabra clave requerida: FROM".data
      else v
    else v
  let v := if sql.count '\'' % 2 ≠ 0 then addErr v "Comillas simples no balanceadas".data else v
  if sql.count '"' % 2 ≠ 0 then addErr v "Comillas dobles no balanceadas".data else v

/-- `SQLGenerator._validate_sql`: the base checks, then — when a schema is
supplied — check 4: every identifier following `FROM` or `JOIN` must be a key
of `schema["tables"]`.  (The column sets the source also gathers in check 4
are dead code: no check ever reads them, so they are not reproduced.) -/
def validateSql (sql : Str) (schema : Option Schema) : Validation :=
  let v := validateBase sql
  match schema with
  | none => v
  | some sch =>
    let schemaTables := sch.tables.map Prod.fst
    (tableRefs sql).foldl
      (fun v t =>
        if !schemaTables.contains t then
          addErr v ("Tabla no encontrada en el esquema: ".data ++ t)
        else v)
      v

example : tableRefs "SELECT * FROM orders".data = ["orders".data] := by decide
example :
    tableRefs "SELECT a FROM x JOIN y ON x.i = y.i".data
      = ["x".data, "y".data] := by decide
example :
    (validateSql "SELECT * FROM (orders".data none).errors
      = ["Paréntesis no balanceados".data,
         "Tabla no encontrada en el esquema: orders".data].take 1 := by decide

/-! ## Relationship cardinality (`SchemaAnalyzer._analyze_relationships`) -/

/-- `fk_column in table_info["primary_key"] or any(idx["unique"] and
fk_column in idx["columns"] for idx in table_info["indexes"])`. -/
def colUniqueInTable (ti : TableInfo) (col : Str) : Bool :=
  ti.primary_key.contains col ||
    ti.indexes.any (fun idx => idx.unique && idx.columns.contains col)

/-- `SchemaAnalyzer._analyze_relationships`: for every table in reflection
order and every foreign key of that table, emit a relationship whose type is
`one_to_one` when both endpoint columns are primary-key members or covered by
a unique index, `one_to_many` when only the source column is, and
`many_to_one` otherwise; a referenced table absent from the analyzed set
contributes `to_table = {}` via `.get`, so its uniqueness test is false.
(The source wraps the cardinality test in `try/except` with the `many_to_one`
default; none of the dictionary accesses can fail on analyzer-built tables,
so the exception branch is unreachable and not modelled.) -/
def analyzeRelationships (tables : List (Str × TableInfo)) : List Relationship :=
  tables.foldl
    (fun rels p =>
      rels ++ p.2.foreign_keys.map (fun fk =>
        let from_is_unique := colUniqueInTable p.2 fk.column
        let to_is_unique :=
          match dictGet tables fk.references_table with
          | some tt => colUniqueInTable tt fk.references_column
          | none => false
        { table_from := p.1
          column_from := fk.column
          table_to := fk.references_table
          column_to := fk.references_column
          relationship_type :=
            if from_is_unique && to_is_unique then "one_to_one".data
            else if from_is_unique then "one_to_many".data
            else "many_to_one".data }))
    []

/-! ## Prompt construction (`_get_schema_summary`, `_prepare_prompt`) -/

/-- One column line of the schema summary:
`f"  {pk_mark}{col_name} {col_info['type']} {null_mark}"`. -/
def columnLine (cn : Str) (ci : ColumnInfo) : Str :=
  "  ".data ++ (if ci.primary_key then "*".data else []) ++ cn ++ [' ']
    ++ ci.type ++ [' '] ++ (if ci.nullable then "NULL".data else "NOT NULL".data)

/-- The lines contributed by one table of the schema summary. -/
def tableLines (p : Str × TableInfo) : List Str :=
  ("\nTABLA ".data ++ p.1)
    :: p.2.columns.map (fun c => columnLine c.1 c.2)
    ++ (if p.2.foreign_keys.isEmpty then []
        else "  FOREIGN KEYS:".data
          :: p.2.foreign_keys.map (fun fk =>
            "    ".data ++ fk.column ++ " -> ".data ++ fk.references_table
              ++ ['.'] ++ fk.references_column))

/-- `SQLGenerator._get_schema_summary`. -/
def getSchemaSummary (sch : Schema) : Str :=
  let dbLines : List Str :=
    match sch.database_info with
    | none => []
    | some di =>
      ["Base de datos: ".data ++ di.name.getD "N/A".data ++ " (".data
        ++ di.type.getD "N/A".data ++ ")".data]
  let tLines := "\nESTRUCTURA DE TABLAS:".data :: sch.tables.flatMap tableLines
  let rLines :=
    if sch.relationships.isEmpty then []
    else "\nRELACIONES:".data
      :: sch.relationships.map (fun r =>
        "  ".data ++ r.table_from ++ ['.'] ++ r.column_from ++ " -> ".data
          ++ r.table_to ++ ['.'] ++ r.column_to ++ " (".data
          ++ r.relationship_type ++ ")".data)
  List.intercalate ['\n'] (dbLines ++ tLines ++ rLines)

/-- Worker for `pyFormat`.  Each step consumes at least one character, so
`fuel = s.length` never runs out.  Conversion and format-spec syntax
(`{name!r}`, `{name:>5}`) is not modelled: the source's templates use plain
placeholder names. -/
def pyFormatGo (q sc ex : Str) : Nat → Str → Except Str Str
  | 0, s => .ok s
  | _ + 1, [] => .ok []
  | fuel + 1, c :: t =>
    if c = '\x7b' then
      match t with
      | '\x7b' :: t2 =>
        match pyFormatGo q sc ex fuel t2 with
        | .ok r => .ok ('\x7b' :: r)
        | .error e => .error e
      | _ =>
        let name := t.takeWhile (fun d => d ≠ '\x7d')
        match t.drop name.length with
        | '\x7d' :: t2 =>
          let val :=
            if name = "query".data then some q
            else if name = "schema".data then some sc
            else if name = "examples".data then some ex
            else none
          match val with
          | some v =>
            match pyFormatGo q sc ex fuel t2 with
            | .ok r => .ok (v ++ r)
            | .error e => .error e
          | none => .error (['\''] ++ name ++ ['\''])
        | _ => .error "Single '\x7b' encountered in format string".data
    else if c = '\x7d' then
      match t with
      | '\x7d' :: t2 =>
        match pyFormatGo q sc ex fuel t2 with
        | .ok r => .ok ('\x7d' :: r)
        | .error e => .error e
      | _ => .error "Single '\x7d' encountered in format string".data
    else
      match pyFormatGo q sc ex fuel t with
      | .ok r => .ok (c :: r)
      | .error e => .error e

/-- Python `template.format(query=q, schema=sc, examples=ex)`: substitute the
three keyword arguments, raising (as an `Except.error` carrying `str(e)`) a
`KeyError` for an unknown placeholder name and a `ValueError` for an unpaired
brace. -/
def pyFormat (template q sc ex : Str) : Except Str Str :=
  pyFormatGo q sc ex template.length template

example :
    pyFormat "a{query}b{schema}c".data "Q".data "S".data [] = .ok "aQbSc".data := rfl
example : (pyFormat "x{oops}y".data [] [] []).isOk = false := by decide

/-- `SQLGenerator._get_examples`: the default implementation returns the
empty string. -/
def getExamples : Str := []

/-- `SQLGenerator._get_default_prompt_template`. -/
def defaultPromptTemplate : Str :=
  ("\n# Tarea: Generar una consulta SQL a partir de una descripción en lenguaje natural\n\n"
    ++ "## Esquema de la base de datos\n{schema}\n\n"
    ++ "## Consulta en lenguaje natural\n{query}\n\n"
    ++ "## Instrucciones\n"
    ++ "- Genera una consulta SQL que responda correctamente a la consulta en lenguaje natural.\n"
    ++ "- La consulta debe ser compatible con el esquema de base de datos proporcionado.\n"
    ++ "- Utiliza únicamente tablas y columnas que existan en el esquema.\n"
    ++ "- No inventes nombres de tablas o columnas.\n"
    ++ "- No utilices funciones o sintaxis específica de un motor de base de datos, a menos que se indique lo contrario.\n"
    ++ "- Si no es posible generar una consulta SQL con la información disponible, explica por qué.\n"
    ++ "- Proporciona una breve explicación de lo que hace la consulta y cómo responde a la pregunta.\n\n"
    ++ "## Formato de respuesta\n"
    ++ "Primero proporciona la consulta SQL entre comillas triples con la etiqueta sql:\n\n"
    ++ "```sql\n-- Tu consulta SQL aquí\n```\n\n"
    ++ "Luego proporciona una explicación de cómo la consulta resuelve la pregunta:\n\n"
    ++ "Explicación: \n[Breve explicación de la consulta y cómo responde a la pregunta]\n\n"
    ++ "{examples}\n").data

/-! ## The generator (`SQLGenerator`) -/

/-- Outcome of one call to `provider.generate(prompt, timeout=timeout)`: the
call may raise an exception (identified by its type name, as the orchestrator
dispatches on `type(e).__name__`, and its `str(e)` message), may return a
falsy or non-dict value, or may return a dict whose `.get("text", "")` is the
given text. -/
inductive ProvOutcome where
  | raises (excType : Str) (msg : Str)
  | retInvalid
  | retDict (text : Str)
deriving DecidableEq, Repr

/-- The duck-typed LLM provider: anything exposing `generate`. -/
structure Provider where
  generate : Str → Nat → ProvOutcome

/-- The error kinds of the pipeline.  Modelled from the spec: the classes
live in `utils/error_handler.py`, which only declares the four exception
kinds (`GenerationError`, `ValidationError`, `ProviderError`, `SchemaError`)
named by the spec's §7; each carries its human-readable message. -/
inductive GenErr where
  | generationError (msg : Str)
  | validationError (msg : Str)
  | providerError (msg : Str)
  | schemaError (msg : Str)
deriving DecidableEq, Repr

/-- The result dict assembled by a successful `SQLGenerator.generate`. -/
structure GenResult where
  sql : Str
  explanation : Str
  generation_time : Nat
  validation : Validation
  query : Str
deriving DecidableEq, Repr

/-- The options dict of `generate`, with the source's `.get` defaults. -/
structure Options where
  validate_sql : Bool := true
  include_explanation : Bool := true
  format_sql : Bool := true
  timeout : Nat := 30

/-- The mutable state of a `SQLGenerator` instance. -/
structure Gen where
  provider : Option Provider
  schema : Option Schema
  last_query : Str := []
  last_sql : Str := []
  last_explanation : Str := []
  last_generation_time : Nat := 0
  prompt_template : Str := defaultPromptTemplate

/-- `SQLGenerator.set_prompt_template`: a template missing `{query}` or
`{schema}` is rejected (a warning is logged and the method returns), leaving
the active template unchanged. -/
def setPromptTemplate (g : Gen) (template : Str) : Gen :=
  if !containsSub template "\x7bquery\x7d".data then g
  else if !containsSub template "\x7bschema\x7d".data then g
  else { g with prompt_template := template }

/-- `SQLGenerator.reset_prompt_template`. -/
def resetPromptTemplate (g : Gen) : Gen :=
  { g with prompt_template := defaultPromptTemplate }

/-- `SQLGenerator.set_schema`: the structural checks on the `"tables"` and
`"relationships"` keys always pass on a typed `Schema`; the non-empty-tables
check remains. -/
def setSchema (g : Gen) (schema : Schema) : Gen × Bool :=
  if schema.tables.isEmpty then (g, false) else ({ g with schema := some schema }, true)

/-- `SQLGenerator._prepare_prompt`:
`self.prompt_template.format(query=query, schema=self._get_schema_summary(),
examples=self._get_examples())`. -/
def preparePrompt (g : Gen) (sch : Schema) (query : Str) : Except Str Str :=
  pyFormat g.prompt_template query (getSchemaSummary sch) getExamples

/-- `SQLGenerator.generate`.  Wall-clock time is abstracted by the ambient
`elapsed` argument (the value of `time.time() - start_time`).  The progress
bar and logging are output-only and not modelled.  The result pairs the
generator state after the call with either the result dict or the raised
error: the provider/schema preconditions are checked before any state
change, `last_query` is updated before the `try` block, the `except` block
rewraps an exception whose type name is `"ProviderError"` as `ProviderError`
and every other exception (including the `GenerationError`s raised inside
the `try` block itself) as `GenerationError`, and `last_sql`,
`last_explanation` and `last_generation_time` are only written on the
success path. -/
def generate (g : Gen) (query : Str) (options : Options) (elapsed : Nat) :
    Gen × Except GenErr GenResult :=
  match g.provider with
  | none => (g, .error (.providerError "No se ha establecido un proveedor de IA".data))
  | some provider =>
  match g.schema with
  | none => (g, .error (.schemaError "No se ha establecido un esquema de base de datos".data))
  | some schema =>
  let g := { g with last_query := query }
  match preparePrompt g schema query with
  | .error msg =>
    (g, .error (.generationError ("Error al generar SQL: ".data ++ msg)))
  | .ok prompt =>
  match provider.generate prompt options.timeout with
  | .raises excType msg =>
    if excType = "ProviderError".data then
      (g, .error (.providerError ("Error con el proveedor de IA: ".data ++ msg)))
    else
      (g, .error (.generationError ("Error al generar SQL: ".data ++ msg)))
  | .retInvalid =>
    (g, .error (.generationError
      "Error al generar SQL: Respuesta inválida del proveedor de IA".data))
  | .retDict text =>
    let generated_sql := extractSql text
    if generated_sql.isEmpty then
      (g, .error (.generationError
        "Error al generar SQL: No se pudo extraer una consulta SQL válida de la respuesta".data))
    else
      let explanation := if options.include_explanation then extractExplanation text else []
      let generated_sql := if options.format_sql then formatSql generated_sql else generated_sql
      let validation :=
        if options.validate_sql then validateSql generated_sql (some schema)
        else { valid := true, errors := [] }
      let g := { g with
        last_sql := generated_sql
        last_explanation := explanation
        last_generation_time := elapsed }
      (g, .ok { sql := generated_sql, explanation := explanation,
                generation_time := elapsed, validation := validation, query := query })

/-! ## Concrete fixtures used by witnesses and counterexamples -/

/-- A short but valid prompt template used by the concrete fixtures, keeping
their evaluation small (the behaviours under test do not depend on the
template text, only on its placeholders). -/
def shortTemplate : Str := "P: \x7bquery\x7d S: \x7bschema\x7d E: \x7bexamples\x7d".data

/-- A generator with neither provider nor schema. -/
def gNone : Gen := { provider := none, schema := none, prompt_template := shortTemplate }

/-- A provider whose call always raises an exception of type name
`"TimeoutError"`. -/
def provTimeout : Provider :=
  ⟨fun _ _ => .raises "TimeoutError".data "timed out".data⟩

/-- A provider whose call always raises an exception of type name
`"ProviderError"`. -/
def provPE : Provider :=
  ⟨fun _ _ => .raises "ProviderError".data "boom".data⟩

/-- A provider that returns a dict whose text contains no SQL at all. -/
def provNoSql : Provider := ⟨fun _ _ => .retDict "no hay nada".data⟩

/-- A one-table schema fixture. -/
def schemaUsers : Schema :=
  { tables := [("users".data,
      { columns := [("id".data,
          { type := "INT".data, nullable := false, primary_key := true })]
        primary_key := ["id".data] })]
    relationships := [] }

/-- A generator with a provider but no schema. -/
def gNoSchema : Gen := { provider := some provNoSql, schema := none, prompt_template := shortTemplate }

/-- A generator whose provider raises a `TimeoutError`. -/
def gTimeout : Gen := { provider := some provTimeout, schema := some schemaUsers, prompt_template := shortTemplate }

/-- A generator whose provider raises a `ProviderError`. -/
def gPE : Gen := { provider := some provPE, schema := some schemaUsers, prompt_template := shortTemplate }

/-- A generator whose provider answers with unusable text. -/
def gNoSql : Gen := { provider := some provNoSql, schema := some schemaUsers, prompt_template := shortTemplate }

/-! ## C2 -/

/-- C2: for every question and options, `generate` with no provider set
raises `ProviderError`, and `generate` with a provider set but no schema set
raises `SchemaError`; in both cases the generator state is returned
untouched (in particular `last_query` is not yet written and no prompt is
built), and the error is a fixed value independent of the provider's
behaviour, so the provider is never invoked. -/
theorem generate_precondition_errors :
    (∀ (g : Gen) (q : Str) (o : Options) (el : Nat), g.provider = none →
      generate g q o el =
        (g, .error (.providerError "No se ha establecido un proveedor de IA".data)))
  ∧ (∀ (g : Gen) (q : Str) (o : Options) (el : Nat),
      g.provider.isSome = true → g.schema = none →
      generate g q o el =
        (g, .error (.schemaError "No se ha establecido un esquema de base de datos".data))) := by
  constructor
  · intro g q o el h
    simp [generate, h]
  · intro g q o el hp hs
    obtain ⟨p, hp⟩ := Option.isSome_iff_exists.mp hp
    simp [generate, hp, hs]

/-- Witness for C2 at concrete generators. -/
theorem generate_precondition_errors_witness :
    generate gNone "hola".data {} 0
        = (gNone, .error (.providerError "No se ha establecido un proveedor de IA".data))
  ∧ generate gNoSchema "hola".data {} 0
        = (gNoSchema, .error (.schemaError "No se ha establecido un esquema de base de datos".data)) :=
  ⟨generate_precondition_errors.1 gNone "hola".data {} 0 rfl,
   generate_precondition_errors.2 gNoSchema "hola".data {} 0 rfl rfl⟩

/-! ## C3 -/

/-- C3 counterexample: a provider raising a `TimeoutError` (a timeout, one of
the cases the claim covers) is rethrown by the orchestrator as
`GenerationError`, not as `ProviderError`: the `except` block only rewraps an
exception as `ProviderError` when its type name is literally
`"ProviderError"`. -/
theorem provider_exception_rewrap_cx :
    (generate gTimeout "q".data {} 0).2
        = .error (.generationError "Error al generar SQL: timed out".data)
  ∧ (generate gTimeout "q".data {} 0).2
        ≠ .error (.providerError "Error con el proveedor de IA: timed out".data) := by
  constructor
  · rfl
  · intro h
    simpa using (rfl.trans h :
      (Except.error (ε := GenErr) (α := GenResult)
          (.generationError "Error al generar SQL: timed out".data))
        = .error (.providerError "Error con el proveedor de IA: timed out".data))

/-- C3 amended: an exception raised by the provider's generate call is
rethrown as `ProviderError` wrapping the underlying message exactly when its
type name is `"ProviderError"`; an exception of any other type (timeouts
included) is rethrown as `GenerationError` wrapping the underlying message.
Either way `last_query` has been updated and nothing else in the state
changes. -/
theorem provider_exception_rewrap (g : Gen) (p : Provider) (sch : Schema)
    (q : Str) (o : Options) (el : Nat) (ty msg : Str)
    (hp : g.provider = some p) (hs : g.schema = some sch)
    (hprep : (preparePrompt { g with last_query := q } sch q).isOk = true)
    (hraise : ∀ s t, p.generate s t = .raises ty msg) :
    generate g q o el =
      ({ g with last_query := q },
        if ty = "ProviderError".data then
          .error (.providerError ("Error con el proveedor de IA: ".data ++ msg))
        else
          .error (.generationError ("Error al generar SQL: ".data ++ msg))) := by
  obtain ⟨pr, hpr⟩ : ∃ pr, preparePrompt { g with last_query := q } sch q = .ok pr := by
    cases hpp : preparePrompt { g with last_query := q } sch q with
    | error e => rw [hpp] at hprep; simp [Except.isOk, Except.toBool] at hprep
    | ok pr => exact ⟨pr, rfl⟩
  rw [hp, hs] at hpr
  simp only [generate, hp, hs, hpr, hraise]
  split <;> rfl

/-- Witness for C3 amended: a provider raising an exception whose type name
is `"ProviderError"` is rewrapped as `ProviderError`. -/
theorem provider_exception_rewrap_witness :
    generate gPE "q".data {} 0
      = ({ gPE with last_query := "q".data },
         .error (.providerError ("Error con el proveedor de IA: ".data ++ "boom".data))) := by
  have h := provider_exception_rewrap gPE provPE schemaUsers "q".data {} 0
    "ProviderError".data "boom".data rfl rfl (by decide) (fun s t => rfl)
  simpa using h

/-! ## C10 -/

/-- C10: whenever `generate` fails after the provider/schema precondition
checks passed, the stored `last_sql`, `last_explanation` and
`last_generation_time` keep their previous values, while `last_query` has
been updated to the new question. -/
theorem generate_failure_keeps_last_results (g : Gen) (q : Str) (o : Options)
    (el : Nat) (err : GenErr)
    (hp : g.provider.isSome = true) (hs : g.schema.isSome = true)
    (hfail : (generate g q o el).2 = .error err) :
    (generate g q o el).1.last_sql = g.last_sql
  ∧ (generate g q o el).1.last_explanation = g.last_explanation
  ∧ (generate g q o el).1.last_generation_time = g.last_generation_time
  ∧ (generate g q o el).1.last_query = q := by
  obtain ⟨p, hp⟩ := Option.isSome_iff_exists.mp hp
  obtain ⟨sch, hs⟩ := Option.isSome_iff_exists.mp hs
  simp only [generate, hp, hs] at hfail ⊢
  split at hfail
  · simp_all
  · split at hfail
    · split at hfail <;> simp_all
    · simp_all
    · split at hfail
      · simp_all
      · simp_all

/-- Witness for C10: a provider answer with no extractable SQL makes
`generate` fail with `GenerationError` while preserving the previous
results and updating `last_query`. -/
theorem generate_failure_keeps_last_results_witness :
    (generate gNoSql "pregunta".data {} 0).2
        = .error (.generationError
            "Error al generar SQL: No se pudo extraer una consulta SQL válida de la respuesta".data)
  ∧ ((generate gNoSql "pregunta".data {} 0).1.last_sql = gNoSql.last_sql
      ∧ (generate gNoSql "pregunta".data {} 0).1.last_explanation = gNoSql.last_explanation
      ∧ (generate gNoSql "pregunta".data {} 0).1.last_generation_time = gNoSql.last_generation_time
      ∧ (generate gNoSql "pregunta".data {} 0).1.last_query = "pregunta".data) :=
  ⟨rfl, generate_failure_keeps_last_results gNoSql "pregunta".data {} 0 _ rfl rfl rfl⟩

/-! ## C9 -/

/-- C9: a template missing the question placeholder `{query}` or the schema
placeholder `{schema}` is rejected at set time: the generator state is
unchanged, and any subsequent prompt build therefore uses the previously
active template. -/
theorem set_invalid_template_keeps_previous (g : Gen) (t : Str)
    (h : containsSub t "\x7bquery\x7d".data = false
        ∨ containsSub t "\x7bschema\x7d".data = false) :
    setPromptTemplate g t = g
  ∧ ∀ (sch : Schema) (q : Str),
      preparePrompt (setPromptTemplate g t) sch q = preparePrompt g sch q := by
  have hst : setPromptTemplate g t = g := by
    rcases h with h | h
    · simp [setPromptTemplate, h]
    · unfold setPromptTemplate
      by_cases hq : containsSub t "\x7bquery\x7d".data <;> simp [hq, h]
  exact ⟨hst, fun sch q => by rw [hst]⟩

/-- Witness for C9: a template containing `{query}` but not `{schema}` is
rejected and the prior template keeps producing the same prompts. -/
theorem set_invalid_template_keeps_previous_witness :
    setPromptTemplate gNoSql "pregunta: \x7bquery\x7d".data = gNoSql
  ∧ preparePrompt (setPromptTemplate gNoSql "pregunta: \x7bquery\x7d".data)
        schemaUsers "q".data
      = preparePrompt gNoSql schemaUsers "q".data :=
  ⟨(set_invalid_template_keeps_previous gNoSql "pregunta: \x7bquery\x7d".data
      (Or.inr (by decide))).1,
   (set_invalid_template_keeps_previous gNoSql "pregunta: \x7bquery\x7d".data
      (Or.inr (by decide))).2 schemaUsers "q".data⟩

/-! ## C1 -/

/-- C1: for every schema, validating `"SELECT * FROM orders"` yields
`valid = true` iff `"orders"` is a key of the schema's tables mapping; when
it is absent the verdict is invalid with exactly one error, and that error
names the identifier `"orders"`. -/
theorem validate_select_orders (sch : Schema) :
    ((validateSql "SELECT * FROM orders".data (some sch)).valid = true
        ↔ (sch.tables.map Prod.fst).contains "orders".data = true)
  ∧ ((sch.tables.map Prod.fst).contains "orders".data = false →
      (validateSql "SELECT * FROM orders".data (some sch)).errors
          = ["Tabla no encontrada en el esquema: orders".data]
        ∧ containsSub "Tabla no encontrada en el esquema: orders".data
            "orders".data = true) := by
  have hbase : validateBase "SELECT * FROM orders".data = { valid := true, errors := [] } := by
    decide
  have hrefs : tableRefs "SELECT * FROM orders".data = ["orders".data] := by
    decide
  have hval : validateSql "SELECT * FROM orders".data (some sch)
      = (if !(sch.tables.map Prod.fst).contains "orders".data then
          { valid := false,
            errors := ["Tabla no encontrada en el esquema: orders".data] }
        else { valid := true, errors := [] }) := by
    have h0 : validateSql "SELECT * FROM orders".data (some sch)
        = (tableRefs "SELECT * FROM orders".data).foldl
            (fun v t =>
              if !(sch.tables.map Prod.fst).contains t then
                addErr v ("Tabla no encontrada en el esquema: ".data ++ t)
              else v)
            (validateBase "SELECT * FROM orders".data) := rfl
    rw [h0, hbase, hrefs, List.foldl_cons, List.foldl_nil]
    split
    · decide
    · rfl
  by_cases h : (sch.tables.map Prod.fst).contains "orders".data
  · rw [hval, h]
    decide
  · rw [Bool.not_eq_true] at h
    rw [hval, h]
    decide

/-- Witness for C1 at a concrete schema lacking `"orders"`: the statement is
invalid, with exactly one error naming `orders`. -/
theorem validate_select_orders_witness :
    ((validateSql "SELECT * FROM orders".data (some schemaUsers)).valid = true
        ↔ (schemaUsers.tables.map Prod.fst).contains "orders".data = true)
  ∧ ((validateSql "SELECT * FROM orders".data (some schemaUsers)).errors
        = ["Tabla no encontrada en el esquema: orders".data]
      ∧ containsSub "Tabla no encontrada en el esquema: orders".data
          "orders".data = true) :=
  ⟨(validate_select_orders schemaUsers).1,
   (validate_select_orders schemaUsers).2 (by decide)⟩

/-! ## C4 -/

/-- Accumulating fold with append is a `flatMap`. -/
theorem foldl_append_eq_flatMap {α β : Type} (f : α → List β) :
    ∀ (l : List α) (a : List β),
      l.foldl (fun acc x => acc ++ f x) a = a ++ l.flatMap f := by
  intro l
  induction l with
  | nil => intro a; simp
  | cons x t ih => intro a; simp [ih, List.flatMap_cons, List.append_assoc]

/-- On an association list whose keys are distinct, `dictGet` finds exactly
the entry that the iteration visits. -/
theorem dictGet_of_nodup :
    ∀ (tables : List (Str × TableInfo)),
      (tables.map Prod.fst).Nodup → ∀ p ∈ tables, dictGet tables p.1 = some p.2 := by
  intro tables
  induction tables with
  | nil => intro _ p hp; cases hp
  | cons q t ih =>
    intro hnd p hp
    rw [List.map_cons, List.nodup_cons] at hnd
    rcases List.mem_cons.mp hp with rfl | hp
    · simp [dictGet, List.find?]
    · have hne : ¬(q.1 = p.1) := by
        intro he
        exact hnd.1 (he ▸ List.mem_map_of_mem Prod.fst hp)
      have := ih hnd.2 p hp
      simp only [dictGet, List.find?] at this ⊢
      simp [hne, this]

/-- Modelled from the claim's wording: a column of a named table is "a
primary-key member or covered by a unique index in its table"; tables are
looked up by name, and a table outside the analyzed set has no unique
columns. -/
def colUnique (tables : List (Str × TableInfo)) (tname col : Str) : Bool :=
  match dictGet tables tname with
  | some ti => colUniqueInTable ti col
  | none => false

/-- C4: every relationship derived by the analyzer carries `one_to_one` when
both endpoint columns are unique (primary-key members or covered by a unique
index) in their tables, `one_to_many` when only the source column is, and
`many_to_one` otherwise; a referenced table absent from the analyzed set
counts as having no unique columns, so such relationships default to
`many_to_one` unless the source column itself is unique.  (Key distinctness
reflects Python dict semantics.) -/
theorem relationship_cardinality (tables : List (Str × TableInfo))
    (hnd : (tables.map Prod.fst).Nodup) (r : Relationship)
    (hr : r ∈ analyzeRelationships tables) :
    r.relationship_type =
      if colUnique tables r.table_from r.column_from
          && colUnique tables r.table_to r.column_to then "one_to_one".data
      else if colUnique tables r.table_from r.column_from then "one_to_many".data
      else "many_to_one".data := by
  rw [show analyzeRelationships tables
      = tables.foldl (fun acc p => acc ++ p.2.foreign_keys.map (fun fk =>
          { table_from := p.1
            column_from := fk.column
            table_to := fk.references_table
            column_to := fk.references_column
            relationship_type :=
              if colUniqueInTable p.2 fk.column &&
                  (match dictGet tables fk.references_table with
                   | some tt => colUniqueInTable tt fk.references_column
                   | none => false) then "one_to_one".data
              else if colUniqueInTable p.2 fk.column then "one_to_many".data
              else "many_to_one".data })) [] from rfl,
    foldl_append_eq_flatMap] at hr
  rw [List.nil_append] at hr
  obtain ⟨p, hp, hr⟩ := List.mem_flatMap.mp hr
  obtain ⟨fk, hfk, rfl⟩ := List.mem_map.mp hr
  have hfrom : colUnique tables p.1 fk.column = colUniqueInTable p.2 fk.column := by
    rw [colUnique, dictGet_of_nodup tables hnd p hp]
  have hto : colUnique tables fk.references_table fk.references_column
      = (match dictGet tables fk.references_table with
         | some tt => colUniqueInTable tt fk.references_column
         | none => false) := rfl
  rw [hfrom, hto]

/-- The spec's worked example: `orders.customer_id -> customers.id` with
`customer_id` neither primary nor unique and `id` the primary key of
`customers`. -/
def tablesOrders : List (Str × TableInfo) :=
  [("orders".data,
    { columns := [("id".data, { type := "INT".data, nullable := false, primary_key := true }),
                  ("customer_id".data, { type := "INT".data, nullable := true, primary_key := false })]
      primary_key := ["id".data]
      foreign_keys := [{ column := "customer_id".data,
                         references_table := "customers".data,
                         references_column := "id".data }] }),
   ("customers".data,
    { columns := [("id".data, { type := "INT".data, nullable := false, primary_key := true })]
      primary_key := ["id".data] })]

/-- The single relationship derived from `tablesOrders`. -/
def relOrders : Relationship :=
  { table_from := "orders".data, column_from := "customer_id".data,
    table_to := "customers".data, column_to := "id".data,
    relationship_type := "many_to_one".data }

/-- Witness for C4 at the spec's worked example: the derived type is
`many_to_one`. -/
theorem relationship_cardinality_witness :
    relOrders.relationship_type = "many_to_one".data := by
  have h := relationship_cardinality tablesOrders (by decide) relOrders (by decide)
  rw [h]
  decide

/-! ## C6 -/

/-- C6 counterexample: the formatter is not idempotent.  On
`"select a from t"` one application yields `"SELECT a\n    FROM t"`, but the
second application inserts another newline before `FROM`, producing an extra
indented blank line. -/
theorem format_sql_not_idempotent :
    formatSql (formatSql "select a from t".data) ≠ formatSql "select a from t".data := by
  decide

/-- C6 amended: the formatter is only idempotent in degenerate cases; a
second application inserts an additional indented blank line before every
clause keyword that follows a line break of the formatted output.
Concretely, `format "select a from t" = "SELECT a\n    FROM t"`, formatting
that again yields `"SELECT a\n    \n    FROM t"`, while an input whose only
clause keyword starts the statement, such as `"select 1"`, is a fixed point
after one application. -/
theorem format_sql_second_pass :
    formatSql "select a from t".data = "SELECT a\n    FROM t".data
  ∧ formatSql "SELECT a\n    FROM t".data = "SELECT a\n    \n    FROM t".data
  ∧ formatSql (formatSql "select 1".data) = formatSql "select 1".data := by
  refine ⟨by decide, by decide, by decide⟩

/-! ## C7 -/

/-- A response whose only code block is an untagged fence holding a SELECT
statement. -/
def respUntagged : Str := "Here is it:\n```\nSELECT id FROM users;\n```\nDone.".data

/-- C7: strategy 2 (untagged fenced block starting with a SQL keyword)
returns the *whole* regex match — `group()` with group index 0 — so the
extracted "SQL" still carries the fence delimiters, contradicting the
specified behaviour of returning the block's content without the fences. -/
theorem untagged_fence_extraction_keeps_fences :
    extractSql respUntagged = "```\nSELECT id FROM users;\n```".data
  ∧ extractSql respUntagged ≠ "SELECT id FROM users;".data := by
  refine ⟨by decide, by decide⟩

/-! ## C8 -/

/-- A trailing newline does not survive `str.strip()`. -/
theorem pyrstrip_append_newline (m : Str) : pyrstrip (m ++ ['\n']) = pyrstrip m := by
  have hws : wsChar '\n' = true := by decide
  simp [pyrstrip, List.reverse_append, List.dropWhile_cons, hws]

/-- Dropping a terminating newline before stripping changes nothing. -/
theorem pystrip_take_pred (s : Str) (hl : s.getLast? = some '\n') :
    pystrip (s.take (s.length - 1)) = pystrip s := by
  obtain ⟨m, rfl⟩ := List.getLast?_eq_some_iff.mp hl
  have hlen : (m ++ ['\n']).length - 1 = m.length := by
    simp
  rw [hlen, List.take_left, pystrip, pystrip, pyrstrip_append_newline]

/-- Modelled from the amended claim: the bare-keyword capture for one
command runs from the command's first occurrence up to just before the next
`'.'` character, or to the end of the text when no `'.'` follows, and is
trimmed. -/
def bareSpecCapture (text cmd : Str) : Str :=
  match firstIdx text cmd with
  | none => []
  | some i =>
    let rest := text.drop i
    match firstIdx (rest.drop cmd.length) ['.'] with
    | some j => pystrip (rest.take (cmd.length + j))
    | none => pystrip rest

/-- C8 amended: on a response matched by none of strategies 1–5 but
containing `"SELECT"` (the highest-priority command phrase), `extract_sql`
returns the substring starting at the first occurrence of `"SELECT"` and
ending just before the next `'.'` character — a literal period, not the SQL
statement terminator `';'` — or at the end of the text when no `'.'`
follows, trimmed of surrounding whitespace. -/
theorem bare_keyword_extraction (text : Str)
    (h1 : p1TaggedFence text = none)
    (h2 : p2UntaggedFence text = none)
    (h3 : p3LabelledFence text = none)
    (h4 : p4QueryLabelledFence text = none)
    (h5 : p5LabelledInline text = none)
    (h6 : containsSub text "SELECT".data = true) :
    extractSql text = bareSpecCapture text "SELECT".data := by
  have hfind : sqlCommands.find? (fun cmd => containsSub text cmd)
      = some "SELECT".data := by
    rw [show sqlCommands = "SELECT".data
        :: ["INSERT INTO", "UPDATE", "DELETE FROM", "CREATE TABLE",
            "ALTER TABLE", "DROP TABLE", "BEGIN TRANSACTION"].map String.data from rfl]
    exact List.find?_cons_of_pos _ h6
  simp only [extractSql, h1, h2, h3, h4, h5, bareKeywordSearch, hfind]
  unfold bareSpecCapture bareCapture lazyDotEnd
  cases hi : firstIdx text "SELECT".data with
  | none =>
    rw [containsSub, hi] at h6
    simp at h6
  | some i =>
    simp only [hi]
    cases hd : firstIdx (List.drop ("SELECT".data).length (List.drop i text)) ['.'] with
    | some j =>
      simp only [hd]
    | none =>
      simp only [hd]
      cases hl : (List.drop i text).getLast? with
      | none =>
        rw [List.getLast?_eq_none_iff] at hl
        simp [hl]
      | some c =>
        by_cases hc : c = '\n'
        · subst hc
          rw [if_pos rfl]
          exact pystrip_take_pred _ hl
        · rw [if_neg (by simp [hc])]
          rw [List.take_length]

/-- C8 counterexample: on `"Usa SELECT 1.5 FROM tabla t"` (matched by no
earlier strategy, no `';'` anywhere) the capture stops just before the
literal `'.'` inside the numeral, yielding `"SELECT 1"` instead of the
claimed capture through the next statement terminator or end of text,
`"SELECT 1.5 FROM tabla t"`. -/
theorem bare_keyword_extraction_cx :
    extractSql "Usa SELECT 1.5 FROM tabla t".data = "SELECT 1".data
  ∧ extractSql "Usa SELECT 1.5 FROM tabla t".data ≠ "SELECT 1.5 FROM tabla t".data := by
  refine ⟨by decide, by decide⟩

/-- Witness for C8 amended at a concrete period-free response. -/
theorem bare_keyword_extraction_witness :
    extractSql "Dime SELECT nombre FROM t".data
      = bareSpecCapture "Dime SELECT nombre FROM t".data "SELECT".data :=
  bare_keyword_extraction "Dime SELECT nombre FROM t".data
    (by decide) (by decide) (by decide) (by decide) (by decide) (by decide)

/-! ## C5: supporting lemmas about `firstIdx` and `pystrip` -/

/-- Whether a pattern is a prefix of a list is decided inside the list when
the list is long enough. -/
theorem isPrefixOf_append_of_le :
    ∀ (pat l s : Str), pat.length ≤ l.length →
      pat.isPrefixOf (l ++ s) = pat.isPrefixOf l := by
  intro pat
  induction pat with
  | nil => intro l s _; simp [List.isPrefixOf]
  | cons p pt ih =>
    intro l s hlen
    cases l with
    | nil => simp at hlen
    | cons a lt =>
      simp only [List.cons_append, List.isPrefixOf, List.append_eq]
      rw [ih lt s (by simpa using hlen)]

/-- A successful `firstIdx` exhibits the pattern as a prefix of the
corresponding suffix. -/
theorem firstIdx_some_isPrefixOf :
    ∀ (hay pat : Str) (j : Nat), firstIdx hay pat = some j →
      pat.isPrefixOf (hay.drop j) = true := by
  intro hay
  induction hay with
  | nil =>
    intro pat j h
    rw [firstIdx] at h
    split at h
    · rename_i hp
      injection h with h
      subst h
      simpa using hp
    · cases h
  | cons c t ih =>
    intro pat j h
    rw [firstIdx] at h
    split at h
    · rename_i hp
      injection h with h
      subst h
      simpa using hp
    · cases hj : firstIdx t pat with
      | none => rw [hj] at h; cases h
      | some j0 =>
        rw [hj] at h
        injection h with h
        subst h
        simpa using ih pat j0 hj

/-- A match found inside the left part of an append is also the leftmost
match of the whole append (the pattern fits inside the left part, so no
earlier straddling match can appear). -/
theorem firstIdx_append_left :
    ∀ (c s pat : Str) (j : Nat), firstIdx c pat = some j →
      firstIdx (c ++ s) pat = some j := by
  intro c
  induction c with
  | nil =>
    intro s pat j h
    rw [firstIdx] at h
    split at h
    · rename_i hp
      injection h with h
      subst h
      have hpnil : pat = [] := by simpa [List.isPrefixOf] using hp
      subst hpnil
      cases s with
      | nil => rfl
      | cons a t => simp [firstIdx, List.isPrefixOf]
    · cases h
  | cons a ct ih =>
    intro s pat j h
    rw [firstIdx] at h
    split at h
    · rename_i hp
      injection h with h
      subst h
      have : pat.isPrefixOf ((a :: ct) ++ s) = true := by
        rw [List.isPrefixOf_iff_prefix] at hp ⊢
        exact hp.trans (List.prefix_append _ _)
      rw [List.cons_append, firstIdx, if_pos (by simpa [List.cons_append] using this)]
    · rename_i hp
      cases hj : firstIdx ct pat with
      | none => rw [hj] at h; cases h
      | some j0 =>
        rw [hj] at h
        injection h with h
        subst h
        have hlen : pat.length ≤ (a :: ct).length := by
          have hpre := firstIdx_some_isPrefixOf ct pat j0 hj
          rw [List.isPrefixOf_iff_prefix] at hpre
          have := hpre.length_le
          simp only [List.length_drop] at this
          simp only [List.length_cons]
          omega
        have hp0 : pat.isPrefixOf (a :: ct) = false := by
          cases hval : pat.isPrefixOf (a :: ct)
          · rfl
          · exact absurd hval hp
        have hnp : pat.isPrefixOf ((a :: ct) ++ s) = false := by
          rw [isPrefixOf_append_of_le pat (a :: ct) s hlen]
          exact hp0
        rw [List.cons_append, firstIdx]
        rw [if_neg (by simp only [List.cons_append] at hnp; simp [hnp])]
        rw [ih s pat j0 hj]
        rfl

/-- The character at a successful match position is the head of the
pattern. -/
theorem firstIdx_some_getElem (hay : Str) (c : Char) (pt : Str) (j : Nat)
    (h : firstIdx hay (c :: pt) = some j) : hay[j]? = some c := by
  have hpre := firstIdx_some_isPrefixOf hay (c :: pt) j h
  cases hd : hay.drop j with
  | nil => rw [hd] at hpre; simp [List.isPrefixOf] at hpre
  | cons d dt =>
    rw [hd] at hpre
    simp only [List.isPrefixOf, Bool.and_eq_true, beq_iff_eq] at hpre
    have : hay[j]? = (hay.drop j)[0]? := by
      rw [List.getElem?_drop]
      simp
    rw [this, hd]
    simpa using hpre.1.symm

/-- Right-stripping text appended after `" filtra usuarios"` cannot eat into
it: the phrase ends in a non-whitespace character. -/
theorem pyrstrip_filtra (t : Str) :
    ∃ w, pyrstrip (" filtra usuarios".data ++ t) = " filtra usuarios".data ++ w := by
  unfold pyrstrip
  rw [List.reverse_append, List.dropWhile_append]
  split
  · refine ⟨[], ?_⟩
    rw [show List.dropWhile wsChar (" filtra usuarios".data).reverse
        = (" filtra usuarios".data).reverse from by decide]
    simp
  · refine ⟨(List.dropWhile wsChar t.reverse).reverse, ?_⟩
    rw [List.reverse_append, List.reverse_reverse]

/-- Stripping a string that starts with `" filtra usuarios"` yields a string
that starts with `"filtra usuarios"`. -/
theorem pystrip_filtra (t : Str) :
    ∃ w, pystrip (" filtra usuarios".data ++ t) = "filtra usuarios".data ++ w := by
  obtain ⟨w2, hw2⟩ := pyrstrip_filtra t
  refine ⟨w2, ?_⟩
  rw [pystrip, hw2]
  rw [show " filtra usuarios".data ++ w2 = ' ' :: ("filtra usuarios".data ++ w2) from rfl]
  rw [pylstrip, List.dropWhile_cons, if_pos (by decide)]
  rw [show "filtra usuarios".data ++ w2 = 'f' :: ("iltra usuarios".data ++ w2) from rfl]
  rw [List.dropWhile_cons, if_neg (by decide)]

/-- A non-empty pattern is found in any string it starts. -/
theorem containsSub_of_starts (c : Char) (x w : Str) :
    containsSub ((c :: x) ++ w) (c :: x) = true := by
  rw [containsSub, show (c :: x) ++ w = c :: (x ++ w) from rfl, firstIdx,
    if_pos]
  · rfl
  · rw [List.isPrefixOf_iff_prefix]
    exact List.prefix_append (c :: x) w

/-- The backtick character. -/
def btick : Char := Char.ofNat 96

/-- The fixed fragment of the C5 response shape: a fenced block tagged `sql`
holding `SELECT id FROM users;`, followed by a paragraph starting
`Explicación: filtra usuarios`. -/
def fixedC5 : Str :=
  "```sql\nSELECT id FROM users;\n```\n\nExplicación: filtra usuarios".data

/-- C5: for every response text embedding `fixedC5` — with the enclosing
text constrained only by the leftmost-match hypotheses that the first
`"```sql"` of the response opens this block and the first `"Explicación:"`
is this paragraph's — `extract_sql` returns the trimmed statement
`SELECT id FROM users;` and `extract_explanation` returns text containing
`filtra usuarios`. -/
theorem tagged_block_extraction (pre suf : Str)
    (h1 : firstIdx (pre ++ (fixedC5 ++ suf)) sqlTag = some pre.length)
    (h2 : firstIdx (pre ++ (fixedC5 ++ suf)) "Explicación:".data
        = some (pre.length + 34)) :
    extractSql (pre ++ (fixedC5 ++ suf)) = "SELECT id FROM users;".data
  ∧ containsSub (extractExplanation (pre ++ (fixedC5 ++ suf)))
      "filtra usuarios".data = true := by
  have hdrop1 : List.drop (pre.length + 6) (pre ++ (fixedC5 ++ suf))
      = "\nSELECT id FROM users;\n```\n\nExplicación: filtra usuarios".data ++ suf := by
    rw [List.drop_append, List.drop_append_of_le_length (by decide)]
    rfl
  have hfence : firstIdx
      ("\nSELECT id FROM users;\n```\n\nExplicación: filtra usuarios".data ++ suf)
      fence = some 23 :=
    firstIdx_append_left _ suf fence 23 (by decide)
  have hp1 : p1TaggedFence (pre ++ (fixedC5 ++ suf))
      = some "SELECT id FROM users;".data := by
    unfold p1TaggedFence
    simp only [h1, hdrop1, hfence]
    rw [List.take_append_of_le_length (by decide)]
    decide
  have hsql : extractSql (pre ++ (fixedC5 ++ suf)) = "SELECT id FROM users;".data := by
    simp only [extractSql, hp1]
  have hml : ("Explicación:".data).length = 12 := by decide
  have hdrop2 : List.drop (pre.length + 34 + ("Explicación:".data).length)
      (pre ++ (fixedC5 ++ suf)) = " filtra usuarios".data ++ suf := by
    rw [hml, show pre.length + 34 + 12 = pre.length + 46 from by omega,
      List.drop_append, List.drop_append_of_le_length (by decide)]
    rfl
  have h16 : (" filtra usuarios".data).length = 16 := by decide
  have key : ∀ p, 16 ≤ p →
      ∃ w, pystrip (List.take p (" filtra usuarios".data ++ suf))
        = "filtra usuarios".data ++ w := by
    intro p hp
    obtain ⟨w, hw⟩ := pystrip_filtra (List.take (p - 16) suf)
    refine ⟨w, ?_⟩
    rw [show List.take p (" filtra usuarios".data ++ suf)
        = " filtra usuarios".data ++ List.take (p - 16) suf from by
      conv_lhs => rw [show p = (" filtra usuarios".data).length + (p - 16) from by
        rw [h16]; omega]
      exact List.take_append _]
    exact hw
  have hcap : ∃ w, explanationCapture (pre ++ (fixedC5 ++ suf)) "Explicación:".data
      = some ("filtra usuarios".data ++ w) := by
    unfold explanationCapture
    simp only [h2, hdrop2]
    cases hf : firstIdx (" filtra usuarios".data ++ suf) fence with
    | some j =>
      have hj : 16 ≤ j := by
        by_contra hlt
        push_neg at hlt
        have hc := firstIdx_some_getElem (" filtra usuarios".data ++ suf)
          btick "``".data j hf
        rw [List.getElem?_append_left (by rw [h16]; exact hlt)] at hc
        have hnb : ∀ k, k < 16 → (" filtra usuarios".data)[k]? ≠ some btick := by
          decide
        exact hnb j hlt hc
      obtain ⟨w, hw⟩ := key j hj
      refine ⟨w, ?_⟩
      simp only [hf]
      rw [hw]
    | none =>
      simp only [hf]
      by_cases hnl : (" filtra usuarios".data ++ suf).getLast? = some '\n'
      · rw [if_pos hnl]
        have hsufne : suf ≠ [] := by
          intro he
          subst he
          rw [List.append_nil] at hnl
          exact absurd hnl (by decide)
        have hlen : (" filtra usuarios".data ++ suf).length = 16 + suf.length := by
          simp
          omega
        have hp16 : 16 ≤ (" filtra usuarios".data ++ suf).length - 1 := by
          rw [hlen]
          have : suf.length ≠ 0 := by simpa using hsufne
          omega
        obtain ⟨w, hw⟩ := key _ hp16
        exact ⟨w, by rw [hw]⟩
      · rw [if_neg hnl, List.take_length]
        obtain ⟨w, hw⟩ := pystrip_filtra suf
        exact ⟨w, by rw [hw]⟩
  have hexp : containsSub (extractExplanation (pre ++ (fixedC5 ++ suf)))
      "filtra usuarios".data = true := by
    obtain ⟨w, hw⟩ := hcap
    simp only [extractExplanation, hw]
    exact containsSub_of_starts 'f' "iltra usuarios".data w
  exact ⟨hsql, hexp⟩

/-- Witness for C5 at a concrete response. -/
theorem tagged_block_extraction_witness :
    extractSql ("Respuesta:\n".data ++ (fixedC5 ++ " activos.\n".data))
        = "SELECT id FROM users;".data
  ∧ containsSub
      (extractExplanation ("Respuesta:\n".data ++ (fixedC5 ++ " activos.\n".data)))
      "filtra usuarios".data = true :=
  tagged_block_extraction "Respuesta:\n".data " activos.\n".data
    (by decide) (by decide)
